import Mathlib

/-!
Shallow embedding of `ifc_import.py` (FreeCAD NativeIFC import orchestration).

The module has four entry points: `open` (here `open_file`, since `open` is a
Lean keyword), `insert`, `get_options` and `get_project_type`.  The preference
store (`FreeCAD.ParamGet(...)`) is modelled as a record of the eleven keys the
module reads or writes; `GetBool`/`GetInt` with a default are modelled as a
total field read (the defaults are folded into the record).  The GUI dialog is
modelled as an oracle: a function from the pre-populated dialog fields to an
outcome (cancelled, or accepted with the fields the user left in the dialog).
External collaborator calls (module reload, conversion entry points, auxiliary
loaders, recompute, console prints, `FreeCADGui.doCommand`, `StartPage
.postStart`, the `FreeCAD.IsOpeningIFC` attribute) are recorded as an event
trace in source order.  The conversion collaborator may raise (the source has
no exception handling, failures propagate), modelled by `Env.convertRaises`.
-/

namespace IfcImport

/-- The preference store `User parameter:BaseApp/Preferences/Mod/NativeIFC`,
one field per key used in `ifc_import.py`; integer keys are `Int`
(Python ints), boolean keys are `Bool`. -/
structure Store where
  ImportStrategy : Int
  ShapeMode : Int
  SwitchWB : Bool
  AskAgain : Bool
  LoadOrphans : Bool
  LoadPsets : Bool
  LoadMaterials : Bool
  LoadLayers : Bool
  SingleDoc : Bool
  ProjectAskAgain : Bool
  ProjectFull : Bool
deriving DecidableEq, Repr

/-- The widgets of `dialogImport.ui` that `get_options` reads back after
`dlg.exec_()`: combo boxes give a current index (a Python int), check boxes a
boolean. -/
structure DialogFields where
  comboStrategy : Int
  comboShapeMode : Int
  checkSwitchWB : Bool
  checkAskAgain : Bool
  checkLoadOrphans : Bool
  checkLoadPsets : Bool
  checkLoadMaterials : Bool
  checkLoadLayers : Bool
  comboSingleDoc : Int
deriving DecidableEq, Repr

/-- Outcome of the modal options dialog: `dlg.exec_()` falsy (user cancelled)
or truthy together with the field values the user left in the widgets. -/
inductive DialogOutcome where
  | cancelled
  | accepted (f : DialogFields)
deriving DecidableEq, Repr

/-- The `dialogCreateProject.ui` dialog of `get_project_type`: truthiness of
`dlg.exec_()` and the state of its single check box. -/
structure ProjectDialog where
  result : Bool
  checkBox : Bool
deriving DecidableEq, Repr

/-- A FreeCAD document: only the attributes this module touches. -/
structure Doc where
  Name : String
  Label : String
deriving DecidableEq, Repr

/-- Result of a Python call: normal return of a value, or an uncaught
exception propagating to the caller. -/
inductive Outcome (α : Type) where
  | ok (a : α)
  | raised
deriving DecidableEq, Repr

/-- Observable external effects of the module, in source order. -/
inductive Event where
  | ev_reload
  | ev_dialog_shown
  | ev_convert_document
  | ev_create_document_object
  | ev_load_orphans
  | ev_load_materials
  | ev_load_layers
  | ev_load_psets
  | ev_recompute
  | ev_do_command
  | ev_print_summary
  | ev_post_start
  | ev_print_aborted
  | ev_set_flag
  | ev_new_document
  | ev_del_flag
deriving DecidableEq, Repr

/-- Whether an event is one of the four auxiliary loader calls. -/
def isLoader : Event → Bool
  | .ev_load_orphans => true
  | .ev_load_materials => true
  | .ev_load_layers => true
  | .ev_load_psets => true
  | _ => false

/-- Result of `get_options`: the returned triple (`none` models the
`(None, None, None)` sentinel), the store after the call, and whether the
dialog was shown / accepted on this call. -/
structure OptResult where
  res : Option (Int × Int × Bool)
  store : Store
  shown : Bool
  accepted : Bool
deriving DecidableEq, Repr

/-- The widget values `get_options` pre-populates the dialog with
(source lines 144-152): resolved strategy/shapemode/switchwb, the ask flag and
the five toggles; `comboSingleDoc` is set to `1 - int(singledoc)`. -/
def initFields (strategy shapemode : Int) (switchwb ask orphans psets
    materials layers singledoc : Bool) : DialogFields :=
  { comboStrategy := strategy
    comboShapeMode := shapemode
    checkSwitchWB := switchwb
    checkAskAgain := ask
    checkLoadOrphans := orphans
    checkLoadPsets := psets
    checkLoadMaterials := materials
    checkLoadLayers := layers
    comboSingleDoc := 1 - (if singledoc then (1 : Int) else 0) }

/-- The pre-populated fields as a function of the store and the overrides,
exactly as `get_options` computes them before `dlg.exec_()`. -/
def optionsInitFields (store : Store) (strategy shapemode : Option Int)
    (switchwb : Option Bool) : DialogFields :=
  initFields (strategy.getD store.ImportStrategy)
    (shapemode.getD store.ShapeMode) (switchwb.getD store.SwitchWB)
    store.AskAgain store.LoadOrphans store.LoadPsets store.LoadMaterials
    store.LoadLayers store.SingleDoc

/-- `get_options(strategy, shapemode, switchwb, silent, orphans)`,
source lines 109-174.  `dlg` is the dialog oracle, consulted only when the
dialog is actually shown (`not silent`, `AskAgain`, GUI up). -/
def get_options (store : Store) (guiUp : Bool)
    (dlg : DialogFields → DialogOutcome) (strategy shapemode : Option Int)
    (switchwb : Option Bool) (silent : Bool) (orphans : Option Bool) :
    OptResult :=
  -- line 122 rebinds the `orphans` parameter from the store before any use
  let orphans := store.LoadOrphans
  let psets := store.LoadPsets
  let materials := store.LoadMaterials
  let layers := store.LoadLayers
  let singledoc := store.SingleDoc
  let strategy := strategy.getD store.ImportStrategy
  let shapemode := shapemode.getD store.ShapeMode
  let switchwb := switchwb.getD store.SwitchWB
  if silent then
    { res := some (strategy, shapemode, switchwb), store := store
      shown := false, accepted := false }
  else
    let ask := store.AskAgain
    if ask && guiUp then
      match dlg (initFields strategy shapemode switchwb ask orphans psets
          materials layers singledoc) with
      | .cancelled =>
          { res := none, store := store, shown := true, accepted := false }
      | .accepted f =>
          let strategy := f.comboStrategy
          let shapemode := f.comboShapeMode
          let switchwb := f.checkSwitchWB
          let ask := f.checkAskAgain
          let orphans := f.checkLoadOrphans
          let psets := f.checkLoadPsets
          let materials := f.checkLoadMaterials
          let layers := f.checkLoadLayers
          let singledoc := f.comboSingleDoc
          { res := some (strategy, shapemode, switchwb)
            store := { store with
              ImportStrategy := strategy
              ShapeMode := shapemode
              SwitchWB := switchwb
              AskAgain := ask
              LoadOrphans := orphans
              LoadPsets := psets
              LoadMaterials := materials
              LoadLayers := layers
              SingleDoc := decide (1 - singledoc ≠ 0) }
            shown := true, accepted := true }
    else
      { res := some (strategy, shapemode, switchwb), store := store
        shown := false, accepted := false }

/-- Result of `get_project_type`: the returned flag, the store after the
call, and whether the confirmation dialog was shown. -/
structure PTypeResult where
  ptype : Bool
  store : Store
  shown : Bool
deriving DecidableEq, Repr

/-- `get_project_type(silent)`, source lines 177-196.  Note the store is
written whenever the dialog is shown, on acceptance and on cancellation
alike (`bool(result)` feeds straight into `SetBool`). -/
def get_project_type (store : Store) (guiUp : Bool) (pdlg : ProjectDialog)
    (silent : Bool) : PTypeResult :=
  let ask := store.ProjectAskAgain
  let ptype := store.ProjectFull
  if silent then
    { ptype := ptype, store := store, shown := false }
  else if ask && guiUp then
    let ask := !pdlg.checkBox
    let ptype := pdlg.result
    { ptype := ptype
      store := { store with ProjectAskAgain := ask, ProjectFull := ptype }
      shown := true }
  else
    { ptype := ptype, store := store, shown := false }

/-- The ambient FreeCAD environment: GUI availability, the dialog oracle,
document lookup, the document `FreeCAD.newDocument()` yields, and whether
the conversion collaborator raises. -/
structure Env where
  guiUp : Bool
  dialog : DialogFields → DialogOutcome
  getDocument : String → Doc
  freshDoc : Doc
  convertRaises : Bool

/-- Result of `insert`: outcome (`ok none` models the bare `return` on the
aborted path, `ok (some doc)` the `return document`), the store after the
call, and the event trace. -/
structure InsertResult where
  outcome : Outcome (Option Doc)
  store : Store
  events : List Event

/-- The conditional loader calls of `insert`, source lines 79-86, in source
order; materials are additionally guarded by `not silent`. -/
def loaderEvents (store : Store) (silent : Bool) : List Event :=
  (if store.LoadOrphans then [Event.ev_load_orphans] else []) ++
  (if !silent && store.LoadMaterials then [Event.ev_load_materials] else []) ++
  (if store.LoadLayers then [Event.ev_load_layers] else []) ++
  (if store.LoadPsets then [Event.ev_load_psets] else [])

/-- The effects of `insert` after `document.recompute()`, source lines
89-105: the console reference command (GUI only), the import summary print,
and the workbench start-page transition (GUI and `switchwb`). -/
def tailEvents (guiUp switchwb : Bool) : List Event :=
  (if guiUp then [Event.ev_do_command] else []) ++
  [Event.ev_print_summary] ++
  (if guiUp && switchwb then [Event.ev_post_start] else [])

/-- `insert(filename, docname, strategy, shapemode, switchwb, silent,
singledoc)`, source lines 53-106. -/
def insert (env : Env) (store : Store) (filename docname : String)
    (strategy shapemode : Option Int) (switchwb : Option Bool)
    (silent : Bool) (singledoc : Option Bool) : InsertResult :=
  let o := get_options store env.guiUp env.dialog strategy shapemode
    switchwb silent none
  let pre := Event.ev_reload ::
    (if o.shown then [Event.ev_dialog_shown] else [])
  match o.res with
  | none =>
      -- line 66-68: `if strategy is None: print("Aborted."); return`
      { outcome := .ok none, store := o.store
        events := pre ++ [Event.ev_print_aborted] }
  | some (_strategy, _shapemode, switchwb) =>
      let store := o.store
      let document := env.getDocument docname
      let singledoc := singledoc.getD store.SingleDoc
      let convEv := if singledoc then Event.ev_convert_document
        else Event.ev_create_document_object
      if env.convertRaises then
        { outcome := .raised, store := store, events := pre ++ [convEv] }
      else
        { outcome := .ok (some document), store := store
          events := pre ++ [convEv] ++ loaderEvents store silent ++
            [Event.ev_recompute] ++ tailEvents env.guiUp switchwb }

/-- `os.path.basename` for a POSIX path, on the character list: everything
after the last slash. -/
def basenameList (cs : List Char) : List Char :=
  (cs.reverse.takeWhile (fun c => c ≠ '/')).reverse

/-- Index of the last occurrence of a dot, as `os.path.splitext` finds it. -/
def lastDotIdx : List Char → Option Nat
  | [] => none
  | c :: cs =>
      match lastDotIdx cs with
      | some i => some (i + 1)
      | none => if c = '.' then some 0 else none

/-- The root part of `os.path.splitext`: cut at the last dot unless every
character before it is itself a dot (leading dots never start an
extension). -/
def splitextRoot (cs : List Char) : List Char :=
  match lastDotIdx cs with
  | none => cs
  | some d => if (cs.take d).any (fun c => c ≠ '.') then cs.take d else cs

/-- `os.path.splitext(os.path.basename(filename))[0]`, source line 43. -/
def stem (filename : String) : String :=
  String.mk (splitextRoot (basenameList filename.toList))

/-- Result of `open`: outcome, store after the call, event trace, and the
final state of the `FreeCAD.IsOpeningIFC` attribute (`true` = still set). -/
structure OpenResult where
  outcome : Outcome Doc
  store : Store
  events : List Event
  isOpeningIFC : Bool

/-- `open(filename)`, source lines 40-50 (`open` is a Lean keyword, hence
`open_file`).  Sets `FreeCAD.IsOpeningIFC`, creates a document labelled with
the filename stem, delegates to `insert`, deletes the flag and returns the
document; there is no exception handling, so if `insert` raises the flag is
never deleted and no document is returned. -/
def open_file (env : Env) (store : Store) (filename : String) : OpenResult :=
  let name := stem filename
  let doc := { env.freshDoc with Label := name }
  let pre := [Event.ev_set_flag, Event.ev_new_document]
  let r := insert env store filename doc.Name none none none false none
  match r.outcome with
  | .raised =>
      { outcome := .raised, store := r.store, events := pre ++ r.events
        isOpeningIFC := true }
  | .ok _ =>
      { outcome := .ok doc, store := r.store
        events := pre ++ r.events ++ [Event.ev_del_flag]
        isOpeningIFC := false }

/-! ## Path lemmas for `get_options` and `get_project_type` -/

/-- On any call where the options dialog is not accepted, `get_options`
leaves the store unchanged. -/
theorem get_options_store_frame (store : Store) (guiUp : Bool)
    (dlg : DialogFields → DialogOutcome) (strategy shapemode : Option Int)
    (switchwb : Option Bool) (silent : Bool) (orphans : Option Bool)
    (h : (get_options store guiUp dlg strategy shapemode switchwb silent
      orphans).accepted = false) :
    (get_options store guiUp dlg strategy shapemode switchwb silent
      orphans).store = store := by
  revert h
  simp only [get_options]
  split
  · intro _; rfl
  · split
    · split
      · intro _; rfl
      · intro h; simp at h
    · intro _; rfl

/-- When the ask-again flag or the GUI is absent (and `silent` is false),
`get_options` returns the merged triple, shows no dialog and keeps the
store. -/
theorem get_options_no_dialog (store : Store) (guiUp : Bool)
    (dlg : DialogFields → DialogOutcome) (strategy shapemode : Option Int)
    (switchwb : Option Bool) (orphans : Option Bool)
    (h : (store.AskAgain && guiUp) = false) :
    get_options store guiUp dlg strategy shapemode switchwb false orphans =
      { res := some (strategy.getD store.ImportStrategy,
          shapemode.getD store.ShapeMode, switchwb.getD store.SwitchWB)
        store := store, shown := false, accepted := false } := by
  simp only [get_options, Bool.false_eq_true, if_false, h]

/-- When the dialog is shown and cancelled, `get_options` returns the
sentinel and keeps the store. -/
theorem get_options_cancelled (store : Store) (guiUp : Bool)
    (dlg : DialogFields → DialogOutcome) (strategy shapemode : Option Int)
    (switchwb : Option Bool) (orphans : Option Bool)
    (h1 : store.AskAgain = true) (h2 : guiUp = true)
    (h3 : dlg (optionsInitFields store strategy shapemode switchwb) =
      DialogOutcome.cancelled) :
    get_options store guiUp dlg strategy shapemode switchwb false orphans =
      { res := none, store := store, shown := true, accepted := false } := by
  unfold optionsInitFields at h3
  rw [h1] at h3
  simp only [get_options, Bool.false_eq_true, if_false, h1, h2,
    Bool.and_self, if_true, h3]

/-- When the dialog is shown and accepted with fields `f`, `get_options`
returns the triple read back from `f` and persists all nine values. -/
theorem get_options_accepted (store : Store) (guiUp : Bool)
    (dlg : DialogFields → DialogOutcome) (strategy shapemode : Option Int)
    (switchwb : Option Bool) (orphans : Option Bool) (f : DialogFields)
    (h1 : store.AskAgain = true) (h2 : guiUp = true)
    (h3 : dlg (optionsInitFields store strategy shapemode switchwb) =
      DialogOutcome.accepted f) :
    get_options store guiUp dlg strategy shapemode switchwb false orphans =
      { res := some (f.comboStrategy, f.comboShapeMode, f.checkSwitchWB)
        store := { store with
          ImportStrategy := f.comboStrategy
          ShapeMode := f.comboShapeMode
          SwitchWB := f.checkSwitchWB
          AskAgain := f.checkAskAgain
          LoadOrphans := f.checkLoadOrphans
          LoadPsets := f.checkLoadPsets
          LoadMaterials := f.checkLoadMaterials
          LoadLayers := f.checkLoadLayers
          SingleDoc := decide (1 - f.comboSingleDoc ≠ 0) }
        shown := true, accepted := true } := by
  unfold optionsInitFields at h3
  rw [h1] at h3
  simp only [get_options, Bool.false_eq_true, if_false, h1, h2,
    Bool.and_self, if_true, h3]

/-- On any call where the project dialog is not shown, `get_project_type`
leaves the store unchanged. -/
theorem get_project_type_store_frame (store : Store) (guiUp : Bool)
    (pdlg : ProjectDialog) (silent : Bool)
    (h : (get_project_type store guiUp pdlg silent).shown = false) :
    (get_project_type store guiUp pdlg silent).store = store := by
  revert h
  simp only [get_project_type]
  split
  · intro _; rfl
  · split
    · intro h; simp at h
    · intro _; rfl

/-! ## Event-list lemmas -/

/-- Every event emitted by the loader block is a loader event. -/
theorem isLoader_of_mem_loaderEvents (store : Store) (silent : Bool)
    (e : Event) (he : e ∈ loaderEvents store silent) : isLoader e = true := by
  simp only [loaderEvents, List.mem_append] at he
  rcases he with ((h | h) | h) | h <;> (split at h <;> simp_all [isLoader])

/-- Every event emitted after the recompute is one of the three tail
effects. -/
theorem mem_tailEvents (guiUp switchwb : Bool) (e : Event)
    (he : e ∈ tailEvents guiUp switchwb) :
    e = Event.ev_do_command ∨ e = Event.ev_print_summary ∨
      e = Event.ev_post_start := by
  cases guiUp <;> cases switchwb <;> simp_all [tailEvents] <;> tauto

/-- The loader block is invariant under filtering by `isLoader`. -/
theorem loaderEvents_filter (store : Store) (silent : Bool) :
    (loaderEvents store silent).filter isLoader = loaderEvents store silent := by
  unfold loaderEvents
  split <;> split <;> split <;> split <;> rfl

/-- Filtering by `isLoader` keeps a conditional singleton loader block. -/
theorem filter_ite_loader (b : Prop) [Decidable b] (x : Event)
    (hx : isLoader x = true) :
    List.filter isLoader (if b then [x] else []) = (if b then [x] else []) := by
  split <;> simp [hx]

/-- The tail block contains no loader event. -/
theorem tailEvents_filter (guiUp switchwb : Bool) :
    (tailEvents guiUp switchwb).filter isLoader = [] := by
  cases guiUp <;> cases switchwb <;> rfl

/-! ## Characterization lemmas for `insert` -/

/-- `insert` never writes the store itself: its final store is whatever
`get_options` produced. -/
theorem insert_store_eq (env : Env) (store : Store) (fn dn : String)
    (strategy shapemode : Option Int) (switchwb : Option Bool)
    (silent : Bool) (sd : Option Bool) :
    (insert env store fn dn strategy shapemode switchwb silent sd).store =
      (get_options store env.guiUp env.dialog strategy shapemode switchwb
        silent none).store := by
  simp only [insert]
  rcases h : (get_options store env.guiUp env.dialog strategy shapemode
    switchwb silent none).res with _ | ⟨s, m, w⟩
  · rfl
  · dsimp only
    split <;> rfl

/-- On the aborted path (`get_options` returned the sentinel), `insert`
prints "Aborted." and returns `None` having emitted nothing else after the
reload and dialog. -/
theorem insert_of_res_none (env : Env) (store : Store) (fn dn : String)
    (strategy shapemode : Option Int) (switchwb : Option Bool)
    (silent : Bool) (sd : Option Bool)
    (h : (get_options store env.guiUp env.dialog strategy shapemode switchwb
      silent none).res = none) :
    insert env store fn dn strategy shapemode switchwb silent sd =
      { outcome := .ok none
        store := (get_options store env.guiUp env.dialog strategy shapemode
          switchwb silent none).store
        events := Event.ev_reload ::
          (if (get_options store env.guiUp env.dialog strategy shapemode
            switchwb silent none).shown then [Event.ev_dialog_shown] else [])
          ++ [Event.ev_print_aborted] } := by
  simp only [insert, h]

/-- On the normal path (options resolved, conversion returns), `insert`
returns the document and emits the reload/dialog prefix, exactly one
conversion call chosen by the resolved single-document mode, the loader
block, the recompute, and the tail effects, in that order. -/
theorem insert_of_res_some (env : Env) (store : Store) (fn dn : String)
    (strategy shapemode : Option Int) (switchwb : Option Bool)
    (silent : Bool) (sd : Option Bool) (s m : Int) (w : Bool)
    (h : (get_options store env.guiUp env.dialog strategy shapemode switchwb
      silent none).res = some (s, m, w))
    (hc : env.convertRaises = false) :
    insert env store fn dn strategy shapemode switchwb silent sd =
      { outcome := .ok (some (env.getDocument dn))
        store := (get_options store env.guiUp env.dialog strategy shapemode
          switchwb silent none).store
        events := Event.ev_reload ::
          (if (get_options store env.guiUp env.dialog strategy shapemode
            switchwb silent none).shown then [Event.ev_dialog_shown] else [])
          ++ [if sd.getD (get_options store env.guiUp env.dialog strategy
              shapemode switchwb silent none).store.SingleDoc then
              Event.ev_convert_document else Event.ev_create_document_object]
          ++ loaderEvents (get_options store env.guiUp env.dialog strategy
              shapemode switchwb silent none).store silent
          ++ [Event.ev_recompute]
          ++ tailEvents env.guiUp w } := by
  simp only [insert, h, hc, Bool.false_eq_true, if_false]

/-- When the conversion collaborator raises, `insert` raises after emitting
only the prefix and the single conversion call. -/
theorem insert_of_raise (env : Env) (store : Store) (fn dn : String)
    (strategy shapemode : Option Int) (switchwb : Option Bool)
    (silent : Bool) (sd : Option Bool) (s m : Int) (w : Bool)
    (h : (get_options store env.guiUp env.dialog strategy shapemode switchwb
      silent none).res = some (s, m, w))
    (hc : env.convertRaises = true) :
    insert env store fn dn strategy shapemode switchwb silent sd =
      { outcome := .raised
        store := (get_options store env.guiUp env.dialog strategy shapemode
          switchwb silent none).store
        events := Event.ev_reload ::
          (if (get_options store env.guiUp env.dialog strategy shapemode
            switchwb silent none).shown then [Event.ev_dialog_shown] else [])
          ++ [if sd.getD (get_options store env.guiUp env.dialog strategy
              shapemode switchwb silent none).store.SingleDoc then
              Event.ev_convert_document else Event.ev_create_document_object] } := by
  simp only [insert, h, hc, if_true]

/-- The loader block never emits a conversion, recompute, print or flag
event: its members answer `isLoader`. -/
theorem not_mem_loaderEvents (store : Store) (silent : Bool) (e : Event)
    (h : isLoader e = false) : e ∉ loaderEvents store silent := by
  intro hm
  rw [isLoader_of_mem_loaderEvents store silent e hm] at h
  exact absurd h (by simp)

/-- `insert` never emits the flag-deletion event (only `open` touches the
`IsOpeningIFC` attribute). -/
theorem insert_events_del_flag_free (env : Env) (store : Store)
    (fn dn : String) (strategy shapemode : Option Int)
    (switchwb : Option Bool) (silent : Bool) (sd : Option Bool) :
    Event.ev_del_flag ∉
      (insert env store fn dn strategy shapemode switchwb silent sd).events := by
  have hl : ∀ st s, Event.ev_del_flag ∉ loaderEvents st s := fun st s =>
    not_mem_loaderEvents st s _ rfl
  have ht : ∀ g w, Event.ev_del_flag ∉ tailEvents g w := by
    intro g w hm
    rcases mem_tailEvents g w _ hm with h | h | h <;> simp at h
  rcases h : (get_options store env.guiUp env.dialog strategy shapemode
    switchwb silent none).res with _ | ⟨s, m, w⟩
  · rw [insert_of_res_none env store fn dn strategy shapemode switchwb
      silent sd h]
    cases hs : (get_options store env.guiUp env.dialog strategy shapemode
      switchwb silent none).shown <;> simp
  · cases hc : env.convertRaises
    · rw [insert_of_res_some env store fn dn strategy shapemode switchwb
        silent sd s m w h hc]
      cases hs : (get_options store env.guiUp env.dialog strategy shapemode
        switchwb silent none).shown <;>
        cases hsd : sd.getD (get_options store env.guiUp env.dialog strategy
          shapemode switchwb silent none).store.SingleDoc <;>
        simp [hl, ht]
    · rw [insert_of_raise env store fn dn strategy shapemode switchwb
        silent sd s m w h hc]
      cases hs : (get_options store env.guiUp env.dialog strategy shapemode
        switchwb silent none).shown <;>
        cases hsd : sd.getD (get_options store env.guiUp env.dialog strategy
          shapemode switchwb silent none).store.SingleDoc <;>
        simp

/-- With a non-raising conversion collaborator, `insert` always returns
normally. -/
theorem insert_not_raised (env : Env) (store : Store) (fn dn : String)
    (strategy shapemode : Option Int) (switchwb : Option Bool)
    (silent : Bool) (sd : Option Bool) (hc : env.convertRaises = false) :
    (insert env store fn dn strategy shapemode switchwb silent sd).outcome ≠
      Outcome.raised := by
  rcases h : (get_options store env.guiUp env.dialog strategy shapemode
    switchwb silent none).res with _ | ⟨s, m, w⟩
  · rw [insert_of_res_none env store fn dn strategy shapemode switchwb
      silent sd h]
    simp
  · rw [insert_of_res_some env store fn dn strategy shapemode switchwb
      silent sd s m w h hc]
    simp

/-- `open` never writes the store itself: its final store is whatever the
delegated `insert` produced. -/
theorem open_store_eq (env : Env) (store : Store) (fn : String) :
    (open_file env store fn).store =
      (insert env store fn env.freshDoc.Name none none none false
        none).store := by
  simp only [open_file]
  split <;> rfl

/-! ## Concrete fixtures for witnesses and counterexamples -/

/-- A document as `FreeCAD.newDocument()` yields it. -/
def wDoc : Doc := { Name := "Unnamed", Label := "" }

/-- A store with every preference at its `GetBool`/`GetInt` default except
`AskAgain`, cleared so no dialog is shown. -/
def wStore : Store :=
  { ImportStrategy := 0, ShapeMode := 0, SwitchWB := true, AskAgain := false
    LoadOrphans := false, LoadPsets := false, LoadMaterials := false
    LoadLayers := false, SingleDoc := false, ProjectAskAgain := false
    ProjectFull := false }

/-- A GUI-less environment whose conversion collaborator succeeds. -/
def wEnv : Env :=
  { guiUp := false, dialog := fun _ => DialogOutcome.cancelled
    getDocument := fun _ => wDoc, freshDoc := wDoc, convertRaises := false }

/-- `wStore` with the ask-again flag set, so the dialog path is live. -/
def askStore : Store := { wStore with AskAgain := true }

/-- A GUI environment whose options dialog is always cancelled. -/
def guiCancelEnv : Env := { wEnv with guiUp := true }

/-- Concrete dialog fields a user might leave in the accepted dialog. -/
def acceptFields : DialogFields :=
  { comboStrategy := 2, comboShapeMode := 1, checkSwitchWB := false
    checkAskAgain := false, checkLoadOrphans := true, checkLoadPsets := true
    checkLoadMaterials := true, checkLoadLayers := true, comboSingleDoc := 0 }

/-- A GUI environment whose options dialog is accepted with
`acceptFields`. -/
def guiAcceptEnv : Env :=
  { wEnv with
    guiUp := true
    dialog := fun _ => DialogOutcome.accepted acceptFields }

/-- An environment whose conversion collaborator raises. -/
def raiseEnv : Env := { wEnv with convertRaises := true }

/-- A store whose project dialog is live and whose `ProjectFull` is set. -/
def c1Store : Store :=
  { wStore with
    ProjectAskAgain := true
    ProjectFull := true }

/-- A cancelled project dialog with its check box unchecked. -/
def c1Pdlg : ProjectDialog := { result := false, checkBox := false }

/-- An arbitrary project dialog for silent-path witnesses. -/
def wPdlg : ProjectDialog := { result := true, checkBox := false }

/-! ## Claims -/

/-- C1 counterexample: `get_project_type` writes the Preference Store on a
path where its dialog is shown but NOT accepted — with `ProjectFull`
initially true, a shown-and-cancelled dialog (`result = false`) rewrites
`ProjectFull` to false, changing the store. -/
theorem C1_counterexample :
    c1Pdlg.result = false ∧
    (get_project_type c1Store true c1Pdlg false).shown = true ∧
    (get_project_type c1Store true c1Pdlg false).store ≠ c1Store := by
  decide

/-- C1 (amended): for `get_options`, `insert` and `open`, the Preference
Store is written only on the path where the options dialog is shown and
accepted — on every other path (silent mode, ask-again unset, no GUI,
dialog cancelled) the store is unchanged; `get_project_type`, however,
writes the store whenever its dialog is shown, on acceptance and
cancellation alike, and leaves it unchanged only on the silent,
no-ask-again and no-GUI paths. -/
theorem C1_store_frame :
    (∀ (store : Store) (guiUp : Bool) (dlg : DialogFields → DialogOutcome)
      (strategy shapemode : Option Int) (switchwb : Option Bool)
      (silent : Bool) (orphans : Option Bool),
      (get_options store guiUp dlg strategy shapemode switchwb silent
        orphans).accepted = false →
      (get_options store guiUp dlg strategy shapemode switchwb silent
        orphans).store = store) ∧
    (∀ (env : Env) (store : Store) (fn dn : String)
      (strategy shapemode : Option Int) (switchwb : Option Bool)
      (silent : Bool) (sd : Option Bool),
      (get_options store env.guiUp env.dialog strategy shapemode switchwb
        silent none).accepted = false →
      (insert env store fn dn strategy shapemode switchwb silent sd).store =
        store) ∧
    (∀ (env : Env) (store : Store) (fn : String),
      (get_options store env.guiUp env.dialog none none none false
        none).accepted = false →
      (open_file env store fn).store = store) ∧
    (∀ (store : Store) (guiUp : Bool) (pdlg : ProjectDialog) (silent : Bool),
      (get_project_type store guiUp pdlg silent).shown = false →
      (get_project_type store guiUp pdlg silent).store = store) := by
  refine ⟨?_, ?_, ?_, ?_⟩
  · intro store guiUp dlg strategy shapemode switchwb silent orphans h
    exact get_options_store_frame store guiUp dlg strategy shapemode
      switchwb silent orphans h
  · intro env store fn dn strategy shapemode switchwb silent sd h
    rw [insert_store_eq]
    exact get_options_store_frame _ _ _ _ _ _ _ _ h
  · intro env store fn h
    rw [open_store_eq, insert_store_eq]
    exact get_options_store_frame _ _ _ _ _ _ _ _ h
  · intro store guiUp pdlg silent h
    exact get_project_type_store_frame store guiUp pdlg silent h

/-- C1 witness: on a concrete no-dialog configuration, all four entry
points leave the store unchanged. -/
theorem C1_store_frame_witness :
    (get_options wStore wEnv.guiUp wEnv.dialog none none none false
      none).store = wStore ∧
    (insert wEnv wStore "f.ifc" "doc" none none none false none).store =
      wStore ∧
    (open_file wEnv wStore "f.ifc").store = wStore ∧
    (get_project_type wStore wEnv.guiUp wPdlg false).store = wStore :=
  ⟨C1_store_frame.1 wStore wEnv.guiUp wEnv.dialog none none none false none
      (by decide),
    C1_store_frame.2.1 wEnv wStore "f.ifc" "doc" none none none false none
      (by decide),
    C1_store_frame.2.2.1 wEnv wStore "f.ifc" (by decide),
    C1_store_frame.2.2.2 wStore wEnv.guiUp wPdlg false (by decide)⟩

/-- C2: with `silent = true`, `get_options` returns exactly the provided
overrides with each `None` filled from the stored `ImportStrategy`,
`ShapeMode` and `SwitchWB`, shows no dialog and leaves the store
unchanged — for every combination of overrides. -/
theorem C2_silent_merge (store : Store) (guiUp : Bool)
    (dlg : DialogFields → DialogOutcome) (strategy shapemode : Option Int)
    (switchwb : Option Bool) (orphans : Option Bool) :
    get_options store guiUp dlg strategy shapemode switchwb true orphans =
      { res := some (strategy.getD store.ImportStrategy,
          shapemode.getD store.ShapeMode, switchwb.getD store.SwitchWB)
        store := store, shown := false, accepted := false } := rfl

/-- C3: whenever the options dialog is cancelled, `get_options` returns the
sentinel `(None, None, None)`; and whenever `insert` receives the sentinel,
it prints "Aborted." and returns `None` without calling either conversion
entry point, any loader, or recompute. -/
theorem C3_cancel_abort :
    (∀ (store : Store) (guiUp : Bool) (dlg : DialogFields → DialogOutcome)
      (strategy shapemode : Option Int) (switchwb : Option Bool)
      (orphans : Option Bool),
      store.AskAgain = true → guiUp = true →
      dlg (optionsInitFields store strategy shapemode switchwb) =
        DialogOutcome.cancelled →
      (get_options store guiUp dlg strategy shapemode switchwb false
        orphans).res = none) ∧
    (∀ (env : Env) (store : Store) (fn dn : String)
      (strategy shapemode : Option Int) (switchwb : Option Bool)
      (silent : Bool) (sd : Option Bool),
      (get_options store env.guiUp env.dialog strategy shapemode switchwb
        silent none).res = none →
      (insert env store fn dn strategy shapemode switchwb silent
        sd).outcome = Outcome.ok none ∧
      Event.ev_print_aborted ∈
        (insert env store fn dn strategy shapemode switchwb silent
          sd).events ∧
      Event.ev_convert_document ∉
        (insert env store fn dn strategy shapemode switchwb silent
          sd).events ∧
      Event.ev_create_document_object ∉
        (insert env store fn dn strategy shapemode switchwb silent
          sd).events ∧
      (insert env store fn dn strategy shapemode switchwb silent
        sd).events.filter isLoader = [] ∧
      Event.ev_recompute ∉
        (insert env store fn dn strategy shapemode switchwb silent
          sd).events) := by
  constructor
  · intro store guiUp dlg strategy shapemode switchwb orphans h1 h2 h3
    rw [get_options_cancelled store guiUp dlg strategy shapemode switchwb
      orphans h1 h2 h3]
  · intro env store fn dn strategy shapemode switchwb silent sd h
    rw [insert_of_res_none env store fn dn strategy shapemode switchwb
      silent sd h]
    cases hs : (get_options store env.guiUp env.dialog strategy shapemode
      switchwb silent none).shown <;>
      exact ⟨rfl, by simp, by simp, by simp, rfl, by simp⟩

/-- C3 witness: a live, always-cancelling dialog yields the sentinel, and
`insert` aborts on it with no conversion, loader or recompute event. -/
theorem C3_cancel_abort_witness :
    (get_options askStore true guiCancelEnv.dialog none none none false
      none).res = none ∧
    ((insert guiCancelEnv askStore "f.ifc" "doc" none none none false
      none).outcome = Outcome.ok none ∧
      Event.ev_print_aborted ∈
        (insert guiCancelEnv askStore "f.ifc" "doc" none none none false
          none).events ∧
      Event.ev_convert_document ∉
        (insert guiCancelEnv askStore "f.ifc" "doc" none none none false
          none).events ∧
      Event.ev_create_document_object ∉
        (insert guiCancelEnv askStore "f.ifc" "doc" none none none false
          none).events ∧
      (insert guiCancelEnv askStore "f.ifc" "doc" none none none false
        none).events.filter isLoader = [] ∧
      Event.ev_recompute ∉
        (insert guiCancelEnv askStore "f.ifc" "doc" none none none false
          none).events) :=
  ⟨C3_cancel_abort.1 askStore true guiCancelEnv.dialog none none none none
      (by decide) rfl (by decide),
    C3_cancel_abort.2 guiCancelEnv askStore "f.ifc" "doc" none none none
      false none (by decide)⟩

/-- C4: when the options dialog is shown and accepted with fields `f`,
`get_options` persists all nine toggles/values (`ImportStrategy`,
`ShapeMode`, `SwitchWB`, `AskAgain`, `LoadOrphans`, `LoadPsets`,
`LoadMaterials`, `LoadLayers`, `SingleDoc`) to the store and returns the
strategy, shapemode and switchwb read back from the dialog fields. -/
theorem C4_accept_persists (store : Store) (guiUp : Bool)
    (dlg : DialogFields → DialogOutcome) (strategy shapemode : Option Int)
    (switchwb : Option Bool) (orphans : Option Bool) (f : DialogFields)
    (h1 : store.AskAgain = true) (h2 : guiUp = true)
    (h3 : dlg (optionsInitFields store strategy shapemode switchwb) =
      DialogOutcome.accepted f) :
    get_options store guiUp dlg strategy shapemode switchwb false orphans =
      { res := some (f.comboStrategy, f.comboShapeMode, f.checkSwitchWB)
        store := { store with
          ImportStrategy := f.comboStrategy
          ShapeMode := f.comboShapeMode
          SwitchWB := f.checkSwitchWB
          AskAgain := f.checkAskAgain
          LoadOrphans := f.checkLoadOrphans
          LoadPsets := f.checkLoadPsets
          LoadMaterials := f.checkLoadMaterials
          LoadLayers := f.checkLoadLayers
          SingleDoc := decide (1 - f.comboSingleDoc ≠ 0) }
        shown := true, accepted := true } :=
  get_options_accepted store guiUp dlg strategy shapemode switchwb orphans
    f h1 h2 h3

/-- C4 witness: an accepted dialog with concrete fields persists all nine
values and returns the triple shown in the dialog. -/
theorem C4_accept_persists_witness :
    get_options askStore true guiAcceptEnv.dialog none none none false
      none =
      { res := some (acceptFields.comboStrategy, acceptFields.comboShapeMode,
          acceptFields.checkSwitchWB)
        store := { askStore with
          ImportStrategy := acceptFields.comboStrategy
          ShapeMode := acceptFields.comboShapeMode
          SwitchWB := acceptFields.checkSwitchWB
          AskAgain := acceptFields.checkAskAgain
          LoadOrphans := acceptFields.checkLoadOrphans
          LoadPsets := acceptFields.checkLoadPsets
          LoadMaterials := acceptFields.checkLoadMaterials
          LoadLayers := acceptFields.checkLoadLayers
          SingleDoc := decide (1 - acceptFields.comboSingleDoc ≠ 0) }
        shown := true, accepted := true } :=
  C4_accept_persists askStore true guiAcceptEnv.dialog none none none none
    acceptFields (by decide) rfl (by decide)

/-- C5: on every non-aborted call to `insert`, the resolved single-document
mode (explicit `singledoc` argument if given, else the stored `SingleDoc`)
selects the conversion entry point: mode true calls `convert_document`
exactly once and `create_document_object` never, mode false the other way
round — whether or not the conversion itself then raises. -/
theorem C5_dispatch (env : Env) (store : Store) (fn dn : String)
    (strategy shapemode : Option Int) (switchwb : Option Bool)
    (silent : Bool) (sd : Option Bool) (s m : Int) (w : Bool)
    (h : (get_options store env.guiUp env.dialog strategy shapemode switchwb
      silent none).res = some (s, m, w)) :
    ((insert env store fn dn strategy shapemode switchwb silent
        sd).events.count Event.ev_convert_document =
      if sd.getD (get_options store env.guiUp env.dialog strategy shapemode
        switchwb silent none).store.SingleDoc then 1 else 0) ∧
    ((insert env store fn dn strategy shapemode switchwb silent
        sd).events.count Event.ev_create_document_object =
      if sd.getD (get_options store env.guiUp env.dialog strategy shapemode
        switchwb silent none).store.SingleDoc then 0 else 1) := by
  have hl1 : ∀ st sil, (loaderEvents st sil).count Event.ev_convert_document
      = 0 := fun st sil =>
    List.count_eq_zero.2 (not_mem_loaderEvents st sil _ rfl)
  have hl2 : ∀ st sil,
      (loaderEvents st sil).count Event.ev_create_document_object = 0 :=
    fun st sil => List.count_eq_zero.2 (not_mem_loaderEvents st sil _ rfl)
  have ht1 : ∀ g ww, (tailEvents g ww).count Event.ev_convert_document
      = 0 := by
    intro g ww
    refine List.count_eq_zero.2 fun hm => ?_
    rcases mem_tailEvents g ww _ hm with hh | hh | hh <;> simp at hh
  have ht2 : ∀ g ww, (tailEvents g ww).count Event.ev_create_document_object
      = 0 := by
    intro g ww
    refine List.count_eq_zero.2 fun hm => ?_
    rcases mem_tailEvents g ww _ hm with hh | hh | hh <;> simp at hh
  cases hc : env.convertRaises
  · rw [insert_of_res_some env store fn dn strategy shapemode switchwb
      silent sd s m w h hc]
    cases hs : (get_options store env.guiUp env.dialog strategy shapemode
      switchwb silent none).shown <;>
      cases hsd : sd.getD (get_options store env.guiUp env.dialog strategy
        shapemode switchwb silent none).store.SingleDoc <;>
      simp [List.count_append, List.count_cons, hl1, hl2, ht1, ht2]
  · rw [insert_of_raise env store fn dn strategy shapemode switchwb
      silent sd s m w h hc]
    cases hs : (get_options store env.guiUp env.dialog strategy shapemode
      switchwb silent none).shown <;>
      cases hsd : sd.getD (get_options store env.guiUp env.dialog strategy
        shapemode switchwb silent none).store.SingleDoc <;>
      simp [List.count_append, List.count_cons]

/-- C5 witness: on a concrete non-aborted call with `SingleDoc` false and no
override, `create_document_object` is called exactly once and
`convert_document` never. -/
theorem C5_dispatch_witness :
    ((insert wEnv wStore "f.ifc" "doc" none none none false
        none).events.count Event.ev_convert_document =
      if (none : Option Bool).getD (get_options wStore wEnv.guiUp
        wEnv.dialog none none none false none).store.SingleDoc then 1
        else 0) ∧
    ((insert wEnv wStore "f.ifc" "doc" none none none false
        none).events.count Event.ev_create_document_object =
      if (none : Option Bool).getD (get_options wStore wEnv.guiUp
        wEnv.dialog none none none false none).store.SingleDoc then 0
        else 1) :=
  C5_dispatch wEnv wStore "f.ifc" "doc" none none none false none 0 0 true
    (by decide)

/-- C6: on every non-aborted call to `insert` in which the conversion
returns, the loader events of the trace are exactly the block
orphans → materials → layers → psets, each present iff its preference
(read from the store `get_options` produced) is true, materials
additionally absent iff `silent` — order and skip conditions both exact. -/
theorem C6_loader_order (env : Env) (store : Store) (fn dn : String)
    (strategy shapemode : Option Int) (switchwb : Option Bool)
    (silent : Bool) (sd : Option Bool) (s m : Int) (w : Bool)
    (h : (get_options store env.guiUp env.dialog strategy shapemode switchwb
      silent none).res = some (s, m, w))
    (hc : env.convertRaises = false) :
    (insert env store fn dn strategy shapemode switchwb silent
        sd).events.filter isLoader =
      (if (get_options store env.guiUp env.dialog strategy shapemode
        switchwb silent none).store.LoadOrphans then
        [Event.ev_load_orphans] else []) ++
      (if !silent && (get_options store env.guiUp env.dialog strategy
        shapemode switchwb silent none).store.LoadMaterials then
        [Event.ev_load_materials] else []) ++
      (if (get_options store env.guiUp env.dialog strategy shapemode
        switchwb silent none).store.LoadLayers then
        [Event.ev_load_layers] else []) ++
      (if (get_options store env.guiUp env.dialog strategy shapemode
        switchwb silent none).store.LoadPsets then
        [Event.ev_load_psets] else []) := by
  rw [insert_of_res_some env store fn dn strategy shapemode switchwb
    silent sd s m w h hc]
  cases hs : (get_options store env.guiUp env.dialog strategy shapemode
    switchwb silent none).shown <;>
    cases hsd : sd.getD (get_options store env.guiUp env.dialog strategy
      shapemode switchwb silent none).store.SingleDoc <;>
    simp [List.filter_append, loaderEvents_filter, tailEvents_filter,
      isLoader, loaderEvents, filter_ite_loader]

/-- C6 witness: on a concrete non-aborted call with all loader preferences
false, the trace contains no loader event, matching the empty block. -/
theorem C6_loader_order_witness :
    (insert wEnv wStore "f.ifc" "doc" none none none false
        none).events.filter isLoader =
      (if (get_options wStore wEnv.guiUp wEnv.dialog none none none false
        none).store.LoadOrphans then [Event.ev_load_orphans] else []) ++
      (if !false && (get_options wStore wEnv.guiUp wEnv.dialog none none
        none false none).store.LoadMaterials then
        [Event.ev_load_materials] else []) ++
      (if (get_options wStore wEnv.guiUp wEnv.dialog none none none false
        none).store.LoadLayers then [Event.ev_load_layers] else []) ++
      (if (get_options wStore wEnv.guiUp wEnv.dialog none none none false
        none).store.LoadPsets then [Event.ev_load_psets] else []) :=
  C6_loader_order wEnv wStore "f.ifc" "doc" none none none false none 0 0
    true (by decide) rfl

/-- C7: on every non-aborted call to `insert` in which the conversion
returns, `document.recompute()` happens exactly once, after every loader
invocation, and `insert` then returns the document. -/
theorem C7_recompute (env : Env) (store : Store) (fn dn : String)
    (strategy shapemode : Option Int) (switchwb : Option Bool)
    (silent : Bool) (sd : Option Bool) (s m : Int) (w : Bool)
    (h : (get_options store env.guiUp env.dialog strategy shapemode switchwb
      silent none).res = some (s, m, w))
    (hc : env.convertRaises = false) :
    ∃ l1 l2,
      (insert env store fn dn strategy shapemode switchwb silent
        sd).events = l1 ++ Event.ev_recompute :: l2 ∧
      Event.ev_recompute ∉ l1 ∧ Event.ev_recompute ∉ l2 ∧
      l2.filter isLoader = [] ∧
      (insert env store fn dn strategy shapemode switchwb silent
        sd).outcome = Outcome.ok (some (env.getDocument dn)) := by
  rw [insert_of_res_some env store fn dn strategy shapemode switchwb
    silent sd s m w h hc]
  refine ⟨Event.ev_reload ::
    (if (get_options store env.guiUp env.dialog strategy shapemode switchwb
      silent none).shown then [Event.ev_dialog_shown] else [])
    ++ [if sd.getD (get_options store env.guiUp env.dialog strategy
        shapemode switchwb silent none).store.SingleDoc then
        Event.ev_convert_document else Event.ev_create_document_object]
    ++ loaderEvents (get_options store env.guiUp env.dialog strategy
        shapemode switchwb silent none).store silent,
    tailEvents env.guiUp w, by simp, ?_, ?_, tailEvents_filter env.guiUp w,
    rfl⟩
  · have hl : Event.ev_recompute ∉ loaderEvents (get_options store env.guiUp
      env.dialog strategy shapemode switchwb silent none).store silent :=
      not_mem_loaderEvents _ _ _ rfl
    cases hs : (get_options store env.guiUp env.dialog strategy shapemode
      switchwb silent none).shown <;>
      cases hsd : sd.getD (get_options store env.guiUp env.dialog strategy
        shapemode switchwb silent none).store.SingleDoc <;>
      simp [hl]
  · intro hm
    rcases mem_tailEvents env.guiUp w _ hm with hh | hh | hh <;> simp at hh

/-- C7 witness: on a concrete non-aborted call the trace splits around a
single recompute with no loader after it, and the document is returned. -/
theorem C7_recompute_witness :
    ∃ l1 l2,
      (insert wEnv wStore "f.ifc" "doc" none none none false
        none).events = l1 ++ Event.ev_recompute :: l2 ∧
      Event.ev_recompute ∉ l1 ∧ Event.ev_recompute ∉ l2 ∧
      l2.filter isLoader = [] ∧
      (insert wEnv wStore "f.ifc" "doc" none none none false
        none).outcome = Outcome.ok (some (wEnv.getDocument "doc")) :=
  C7_recompute wEnv wStore "f.ifc" "doc" none none none false none 0 0 true
    (by decide) rfl

/-- C8 counterexample: when the conversion collaborator raises, the
exception propagates out of `open` and the created document is NOT
returned — refuting "returns that document regardless of the outcome of
the delegated import (including when insert aborts or fails)". -/
theorem C8_counterexample :
    (open_file raiseEnv wStore "/path/to/Model.ifc").outcome =
      Outcome.raised ∧
    (open_file raiseEnv wStore "/path/to/Model.ifc").outcome ≠
      Outcome.ok { Name := "Unnamed", Label := "Model" } := by
  decide

/-- C8 (amended): for every filename, whenever the delegated `insert`
returns normally (including the aborted path — but not when it raises, in
which case the exception propagates and no document is returned), `open`
creates and returns a document whose Label is the base filename without
its extension; e.g. `/path/to/Model.ifc` yields label `Model`. -/
theorem C8_open_returns (env : Env) (store : Store) (filename : String)
    (hc : env.convertRaises = false) :
    (open_file env store filename).outcome =
      Outcome.ok { env.freshDoc with Label := stem filename } := by
  have hnr := insert_not_raised env store filename env.freshDoc.Name none
    none none false none hc
  simp only [open_file]
  rcases hr : (insert env store filename env.freshDoc.Name none none none
    false none).outcome with a | _
  · rfl
  · exact absurd hr hnr

/-- C8 witness: opening `/path/to/Model.ifc` in a non-raising environment
returns the fresh document relabelled `Model`. -/
theorem C8_open_returns_witness :
    (open_file wEnv wStore "/path/to/Model.ifc").outcome =
      Outcome.ok { wEnv.freshDoc with Label := stem "/path/to/Model.ifc" } ∧
    stem "/path/to/Model.ifc" = "Model" :=
  ⟨C8_open_returns wEnv wStore "/path/to/Model.ifc" rfl, by decide⟩

/-- C9: in every call to `open`, the `IsOpeningIFC` flag is set before the
document is created and before any import event; the flag-deletion event is
in the trace exactly when the import did not raise; and the flag remains
set after the call exactly when the import raised (no cleanup on the error
path). -/
theorem C9_flag (env : Env) (store : Store) (filename : String) :
    (∃ l, (open_file env store filename).events =
      Event.ev_set_flag :: Event.ev_new_document :: l) ∧
    ((open_file env store filename).isOpeningIFC = true ↔
      (open_file env store filename).outcome = Outcome.raised) ∧
    (Event.ev_del_flag ∈ (open_file env store filename).events ↔
      (open_file env store filename).outcome ≠ Outcome.raised) := by
  have hd := insert_events_del_flag_free env store filename
    env.freshDoc.Name none none none false none
  simp only [open_file]
  rcases hr : (insert env store filename env.freshDoc.Name none none none
    false none).outcome with a | _
  · refine ⟨⟨(insert env store filename env.freshDoc.Name none none none
      false none).events ++ [Event.ev_del_flag], by simp⟩, by simp, ?_⟩
    simp
  · refine ⟨⟨(insert env store filename env.freshDoc.Name none none none
      false none).events, by simp⟩, by simp, ?_⟩
    simp [hd]

/-- C10: the `orphans` parameter of `get_options` has no effect — any two
calls differing only in it return the same triple and the same store,
because line 122 overwrites it from the stored `LoadOrphans` before first
use. -/
theorem C10_orphans_unused (store : Store) (guiUp : Bool)
    (dlg : DialogFields → DialogOutcome) (strategy shapemode : Option Int)
    (switchwb : Option Bool) (silent : Bool) (o1 o2 : Option Bool) :
    get_options store guiUp dlg strategy shapemode switchwb silent o1 =
      get_options store guiUp dlg strategy shapemode switchwb silent o2 :=
  rfl

end IfcImport
